import Mathlib

/-!
Verification of `stratum/lib/channel/channel.h`: a bounded, thread-safe FIFO
channel (`Channel<T>`) with close semantics, plus `ChannelReader<T>` /
`ChannelWriter<T>` handle factories.

The embedding models the sequential (single-thread, lock-held) behavior of
each operation as a pure function on an explicit channel state.  The C++
wait loops (`cond_not_full_.WaitWithTimeout` in `CheckWriteStateAndBlock`,
`cond_not_empty_.WaitWithTimeout` in `Read`) are modelled for a sequential
run with a finite timeout: with no concurrent thread to change the queue or
the closed flag, a bounded wait always expires with the guarding predicate
unchanged, so the loop body runs once and the operation returns the timeout
error (`ERR_NO_RESOURCE` for writes, `ERR_ENTRY_NOT_FOUND` for reads).
An infinite-timeout wait never returns in a sequential run and is outside
this embedding; no claim below depends on it.

`::util::Status` is modelled by `ChannelStatus`: either ok or one of the
four error codes that appear in the source (`ERR_CANCELLED`,
`ERR_NO_RESOURCE`, `ERR_ENTRY_NOT_FOUND`, `ERR_INTERNAL`).  Output
parameters (`T* t` in `Read`/`TryRead`, `std::vector<T>* t_s` in `ReadAll`)
are modelled by passing the prior contents of the output location in and
returning its final contents, so frame properties ("output untouched on
failure") are expressible.
-/

namespace Stratum

/-- Error codes used by `channel.h` (canonical codes of `::util::Status`):
`ERR_CANCELLED`, `ERR_NO_RESOURCE` (ResourceExhausted), `ERR_ENTRY_NOT_FOUND`
(NotFound), `ERR_INTERNAL`. -/
inductive ChannelError where
  | cancelled
  | resourceExhausted
  | notFound
  | internal
  deriving DecidableEq

/-- Model of `::util::Status` as returned by the channel operations: ok, or
an error with one of the four codes. -/
inductive ChannelStatus where
  | ok
  | error (e : ChannelError)
  deriving DecidableEq

/-- State of a `Channel<T>`: the internal `std::deque<T> queue_` (front of the
list is the front of the deque), the `bool closed_` flag, and the constant
`size_t max_depth_`.  The mutex and the two condition variables carry no
sequentially observable state and are not modelled. -/
structure Channel (α : Type) where
  queue : List α
  closed : Bool
  max_depth : Nat
  deriving DecidableEq

namespace Channel

/-- `Channel<T>::Create(max_depth)`: a fresh channel is open with an empty
queue and the given maximum queue depth. -/
def Create (α : Type) (max_depth : Nat) : Channel α :=
  { queue := [], closed := false, max_depth := max_depth }

/-- `Channel<T>::Close()`: returns false if already closed; otherwise sets
`closed_` and returns true.  (The two `SignalAll` calls only wake waiters
and change no sequentially observable state.) -/
def Close (s : Channel α) : Bool × Channel α :=
  if s.closed then (false, s)
  else (true, { s with closed := true })

/-- `Channel<T>::IsClosed()`: point-in-time read of `closed_`. -/
def IsClosed (s : Channel α) : Bool :=
  s.closed

/-- `Channel<T>::CheckWriteState()` (helper of `TryWrite`): closed check,
then full check (`queue_.size() == max_depth_` fails `ERR_NO_RESOURCE`),
then the defensive `queue_.size() > max_depth_` check failing
`ERR_INTERNAL`. -/
def CheckWriteState (s : Channel α) : ChannelStatus :=
  if s.closed then .error .cancelled
  else if s.queue.length = s.max_depth then .error .resourceExhausted
  else if s.max_depth < s.queue.length then .error .internal
  else .ok

/-- `Channel<T>::CheckWriteStateAndBlock(timeout)` (helper of `Write`),
sequential model with a finite timeout: the closed check; then, if
`queue_.size() == max_depth_`, the wait loop — the bounded wait expires with
the queue still full and the channel still open, so it returns
`ERR_NO_RESOURCE`; then the defensive `queue_.size() > max_depth_` check
failing `ERR_INTERNAL`. -/
def CheckWriteStateAndBlock (s : Channel α) : ChannelStatus :=
  if s.closed then .error .cancelled
  else if s.queue.length = s.max_depth then .error .resourceExhausted
  else if s.max_depth < s.queue.length then .error .internal
  else .ok

/-- `Channel<T>::Write(t, timeout)` (both overloads; sequential model with a
finite timeout): on error from `CheckWriteStateAndBlock` return it with the
queue untouched; otherwise `queue_.push_back(t)` and return ok. -/
def Write (s : Channel α) (t : α) : ChannelStatus × Channel α :=
  match s.CheckWriteStateAndBlock with
  | .error e => (.error e, s)
  | .ok => (.ok, { s with queue := s.queue ++ [t] })

/-- `Channel<T>::TryWrite(t)` (both overloads): on error from
`CheckWriteState` return it with the queue untouched; otherwise
`queue_.push_back(t)` and return ok. -/
def TryWrite (s : Channel α) (t : α) : ChannelStatus × Channel α :=
  match s.CheckWriteState with
  | .error e => (.error e, s)
  | .ok => (.ok, { s with queue := s.queue ++ [t] })

/-- `Channel<T>::Read(t, timeout)`, sequential model with a finite timeout.
`t` is the prior contents of the output location `*t`; the returned `α` is
its final contents.  If closed, fail `ERR_CANCELLED` (before looking at the
queue).  If the queue is empty, the bounded wait expires with the queue
still empty and the channel still open: fail `ERR_ENTRY_NOT_FOUND`.
Otherwise move the front element into `*t`, pop it, and return ok. -/
def Read (s : Channel α) (t : α) : ChannelStatus × α × Channel α :=
  if s.closed then (.error .cancelled, t, s)
  else
    match s.queue with
    | [] => (.error .notFound, t, s)
    | x :: rest => (.ok, x, { s with queue := rest })

/-- `Channel<T>::TryRead(t)`: if closed, fail `ERR_CANCELLED`; if the queue
is empty, fail `ERR_ENTRY_NOT_FOUND` immediately; otherwise move the front
element into `*t`, pop it, and return ok. -/
def TryRead (s : Channel α) (t : α) : ChannelStatus × α × Channel α :=
  if s.closed then (.error .cancelled, t, s)
  else
    match s.queue with
    | [] => (.error .notFound, t, s)
    | x :: rest => (.ok, x, { s with queue := rest })

/-- `Channel<T>::ReadAll(t_s)`.  `ts` is the prior contents of the output
vector `*t_s`; the returned `List α` is its final contents.  If closed, fail
`ERR_CANCELLED` with both the queue and `*t_s` untouched; otherwise `*t_s`
is resized to the queue length and the whole queue is moved into it in
order, and the queue is erased. -/
def ReadAll (s : Channel α) (ts : List α) : ChannelStatus × List α × Channel α :=
  if s.closed then (.error .cancelled, ts, s)
  else (.ok, s.queue, { s with queue := [] })

end Channel

/-- A `ChannelReader<T>`: holds a shared-ownership reference to one channel
(`std::shared_ptr<Channel<T>> channel_`). -/
structure ChannelReader (α : Type) where
  channel : Channel α
  deriving DecidableEq

/-- `ChannelReader<T>::Create(channel)`: returns `nullptr` if `channel` is
null or the channel is closed; otherwise a reader holding the channel. -/
def ChannelReader.Create (channel : Option (Channel α)) : Option (ChannelReader α) :=
  match channel with
  | none => none
  | some c => if c.IsClosed then none else some { channel := c }

/-- A `ChannelWriter<T>`: holds a shared-ownership reference to one channel
(`std::shared_ptr<Channel<T>> channel_`). -/
structure ChannelWriter (α : Type) where
  channel : Channel α
  deriving DecidableEq

/-- `ChannelWriter<T>::Create(channel)`: returns `nullptr` if `channel` is
null or the channel is closed; otherwise a writer holding the channel. -/
def ChannelWriter.Create (channel : Option (Channel α)) : Option (ChannelWriter α) :=
  match channel with
  | none => none
  | some c => if c.IsClosed then none else some { channel := c }

/-- One channel operation other than `Close`, for stating trace properties.
`read`/`tryRead` carry the prior contents of the output location,
`readAll` the prior contents of the output vector. -/
inductive ChanOp (α : Type) where
  | write (t : α)
  | tryWrite (t : α)
  | read (d : α)
  | tryRead (d : α)
  | readAll (ts : List α)

namespace Channel

/-- Apply one operation to a channel state, keeping its status and the new
state. -/
def applyOp (s : Channel α) : ChanOp α → ChannelStatus × Channel α
  | .write t => s.Write t
  | .tryWrite t => s.TryWrite t
  | .read d => ((s.Read d).1, (s.Read d).2.2)
  | .tryRead d => ((s.TryRead d).1, (s.TryRead d).2.2)
  | .readAll ts => ((s.ReadAll ts).1, (s.ReadAll ts).2.2)

/-- Run a sequence of operations, collecting every status. -/
def runOps (s : Channel α) : List (ChanOp α) → List ChannelStatus × Channel α
  | [] => ([], s)
  | op :: ops =>
    let r := s.applyOp op
    let rs := r.2.runOps ops
    (r.1 :: rs.1, rs.2)

/-- Run a sequence of writes, failing if any single write fails. -/
def writeAll (s : Channel α) : List α → Option (Channel α)
  | [] => some s
  | w :: ws =>
    match s.Write w with
    | (.ok, s') => s'.writeAll ws
    | (.error _, _) => none

/-- Run `n` reads (the `i`-th a `TryRead` when `useTry i`, else a `Read`
with a finite timeout), collecting the values read in order; fails if any
single read fails.  `d` is the prior contents of the output location. -/
def readN (d : α) (useTry : Nat → Bool) : Nat → Channel α → Option (List α × Channel α)
  | 0, s => some ([], s)
  | n + 1, s =>
    match (if useTry n then s.TryRead d else s.Read d) with
    | (.ok, v, s') =>
      match readN d useTry n s' with
      | some (vs, s'') => some (v :: vs, s'')
      | none => none
    | (.error _, _, _) => none

/-- Capacity invariant of a channel state: the queue length never exceeds
the maximum queue depth. -/
def inv (s : Channel α) : Prop :=
  s.queue.length ≤ s.max_depth

instance (s : Channel α) : Decidable s.inv := by
  unfold inv; infer_instance

end Channel

/-- Message type used for concrete scenario traces. -/
inductive Item where
  | A
  | B
  | C
  deriving DecidableEq

namespace Channel

/-- `CheckWriteStateAndBlock` and `CheckWriteState` coincide in the
sequential model: with no concurrent thread, the wait loop of the blocking
variant runs at most once and exits with the timeout error. -/
theorem checkBlock_eq_check (s : Channel α) :
    s.CheckWriteStateAndBlock = s.CheckWriteState := rfl

/-- `TryRead` and `Read` coincide in the sequential model: with no
concurrent thread, `Read`'s bounded wait on an empty queue always expires. -/
theorem tryRead_eq_read (s : Channel α) (d : α) : s.TryRead d = s.Read d := rfl

/-- On a closed channel every operation fails with `Cancelled` and leaves
the state unchanged. -/
theorem applyOp_of_closed (s : Channel α) (op : ChanOp α) (h : s.closed = true) :
    s.applyOp op = (.error .cancelled, s) := by
  cases op <;>
    simp [applyOp, Write, TryWrite, Read, TryRead, ReadAll,
      CheckWriteStateAndBlock, CheckWriteState, h]

/-- On a closed channel every operation of a sequence fails with
`Cancelled`, and the state never changes. -/
theorem runOps_of_closed (s : Channel α) (ops : List (ChanOp α)) (h : s.closed = true) :
    s.runOps ops = (List.replicate ops.length (.error .cancelled), s) := by
  induction ops with
  | nil => simp [runOps]
  | cons op ops ih => simp [runOps, applyOp_of_closed s op h, ih, List.replicate_succ]

/-- After `Close()` the closed flag is set, whatever it was before. -/
theorem close_sets_closed (s : Channel α) : s.Close.2.closed = true := by
  cases h : s.closed <;> simp [Close, h]

/-- No operation other than `Close` changes the closed flag. -/
theorem applyOp_preserves_closed (s : Channel α) (op : ChanOp α) :
    (s.applyOp op).2.closed = s.closed := by
  cases op with
  | write t => cases hc : s.CheckWriteStateAndBlock <;> simp [applyOp, Write, hc]
  | tryWrite t => cases hc : s.CheckWriteState <;> simp [applyOp, TryWrite, hc]
  | read d => cases hcl : s.closed <;> cases hq : s.queue <;> simp [applyOp, Read, hcl, hq]
  | tryRead d => cases hcl : s.closed <;> cases hq : s.queue <;> simp [applyOp, TryRead, hcl, hq]
  | readAll ts => cases hcl : s.closed <;> simp [applyOp, ReadAll, hcl]

/-- A successful sequence of writes appends its values at the tail in order
and changes neither the closed flag nor the depth bound. -/
theorem writeAll_spec (ws : List α) : ∀ s s' : Channel α, s.writeAll ws = some s' →
    s'.closed = s.closed ∧ s'.max_depth = s.max_depth ∧ s'.queue = s.queue ++ ws := by
  induction ws with
  | nil =>
    intro s s' h
    simp [writeAll] at h
    simp [h]
  | cons w ws ih =>
    intro s s' h
    cases hc : s.CheckWriteStateAndBlock with
    | error e => simp [writeAll, Write, hc] at h
    | ok =>
      simp [writeAll, Write, hc] at h
      obtain ⟨h1, h2, h3⟩ := ih _ _ h
      refine ⟨by simpa using h1, by simpa using h2, ?_⟩
      simpa using h3

/-- On an open channel holding at least `n` items, `n` reads (each a `Read`
with a finite timeout or a `TryRead`) all succeed and pop the first `n`
items in order. -/
theorem readN_spec (d : α) (useTry : Nat → Bool) :
    ∀ (n : Nat) (s : Channel α), s.closed = false → n ≤ s.queue.length →
    readN d useTry n s = some (s.queue.take n, { s with queue := s.queue.drop n }) := by
  intro n
  induction n with
  | zero => intro s h hn; simp [readN]
  | succ n ih =>
    intro s h hn
    cases hq : s.queue with
    | nil => rw [hq] at hn; simp at hn
    | cons x rest =>
      have hr : s.Read d = (.ok, x, { s with queue := rest }) := by
        simp [Read, h, hq]
      have ht : s.TryRead d = (.ok, x, { s with queue := rest }) := by
        simp [TryRead, h, hq]
      have hlen : n ≤ rest.length := by
        rw [hq] at hn
        simpa using Nat.lt_succ_iff.mp (Nat.lt_of_lt_of_le (Nat.lt_succ_self n) hn)
      have ih' := ih { s with queue := rest } (by simpa using h) (by simpa using hlen)
      cases hu : useTry n <;> simp [readN, hu, hr, ht, ih', hq]

/-- A successful `CheckWriteState` means the channel is open and the queue
is strictly below the depth bound. -/
theorem checkWriteState_ok (s : Channel α) (h : s.CheckWriteState = .ok) :
    s.closed = false ∧ s.queue.length < s.max_depth := by
  unfold CheckWriteState at h
  by_cases h1 : s.closed = true
  · simp [h1] at h
  · by_cases h2 : s.queue.length = s.max_depth
    · simp [h1, h2] at h
    · by_cases h3 : s.max_depth < s.queue.length
      · simp [h1, h2, h3] at h
      · simp only [Bool.not_eq_true] at h1
        exact ⟨h1, by omega⟩

/-- Under the capacity invariant, `CheckWriteState` never reports the
defensive `Internal` error: the equality check catches a full queue first. -/
theorem checkWriteState_not_internal (s : Channel α) (h : s.inv) :
    s.CheckWriteState ≠ .error .internal := by
  unfold CheckWriteState
  unfold inv at h
  by_cases h1 : s.closed = true
  · simp [h1]
  · by_cases h2 : s.queue.length = s.max_depth
    · simp [h1, h2]
    · have h3 : ¬ s.max_depth < s.queue.length := by omega
      simp [h1, h2, h3]

/-- Every operation preserves the capacity invariant. -/
theorem inv_applyOp (s : Channel α) (op : ChanOp α) (h : s.inv) :
    (s.applyOp op).2.inv := by
  cases op with
  | write t =>
    cases hc : s.CheckWriteStateAndBlock with
    | error e => simpa [applyOp, Write, hc] using h
    | ok =>
      have hlt := checkWriteState_ok s (by rw [← checkBlock_eq_check]; exact hc)
      simp only [applyOp, Write, hc, inv, List.length_append, List.length_cons,
        List.length_nil]
      omega
  | tryWrite t =>
    cases hc : s.CheckWriteState with
    | error e => simpa [applyOp, TryWrite, hc] using h
    | ok =>
      have hlt := checkWriteState_ok s hc
      simp only [applyOp, TryWrite, hc, inv, List.length_append, List.length_cons,
        List.length_nil]
      omega
  | read d =>
    cases hcl : s.closed with
    | true => simpa [applyOp, Read, hcl] using h
    | false =>
      cases hq : s.queue with
      | nil => simpa [applyOp, Read, hcl, hq] using h
      | cons x rest =>
        unfold inv at h
        rw [hq] at h
        simp only [applyOp, Read, hcl, hq, inv, List.length_cons] at *
        simp only [Bool.false_eq_true, if_false]
        omega
  | tryRead d =>
    cases hcl : s.closed with
    | true => simpa [applyOp, TryRead, hcl] using h
    | false =>
      cases hq : s.queue with
      | nil => simpa [applyOp, TryRead, hcl, hq] using h
      | cons x rest =>
        unfold inv at h
        rw [hq] at h
        simp only [applyOp, TryRead, hcl, hq, inv, List.length_cons] at *
        simp only [Bool.false_eq_true, if_false]
        omega
  | readAll ts =>
    cases hcl : s.closed with
    | true => simpa [applyOp, ReadAll, hcl] using h
    | false => simp [applyOp, ReadAll, hcl, inv]

end Channel

/-- Claim C1: Close finality — once `Close()` has been called on a channel,
every subsequent operation (Write, TryWrite, Read, TryRead, ReadAll, in any
order and number) fails with `Cancelled`, even if the queue still holds
items at close time (`s0` is arbitrary, so in particular its queue may be
non-empty); items queued before close are never delivered through these
operations, since every status of the run is `Cancelled`. -/
theorem close_finality (s0 : Channel α) (ops : List (ChanOp α)) :
    ((Channel.Close s0).2.runOps ops).1 =
      List.replicate ops.length (ChannelStatus.error ChannelError.cancelled) := by
  rw [Channel.runOps_of_closed (Channel.Close s0).2 ops (Channel.close_sets_closed s0)]

/-- Claim C4: `Close()` is the one-time, idempotent Open→Closed transition —
it returns true iff the channel was open when called (so a second call
returns false), after any `Close()` the closed flag is true, and no other
operation ever changes the closed flag (in particular none resets it to
false): Closed is terminal. -/
theorem close_one_time (s : Channel α) (op : ChanOp α) :
    s.Close.1 = !s.closed ∧
    s.Close.2.closed = true ∧
    s.Close.2.Close.1 = false ∧
    (s.applyOp op).2.closed = s.closed := by
  refine ⟨?_, Channel.close_sets_closed s, ?_, Channel.applyOp_preserves_closed s op⟩
  · cases h : s.closed <;> simp [Channel.Close, h]
  · have h2 := Channel.close_sets_closed s
    generalize s.Close.2 = s₂ at h2 ⊢
    simp [Channel.Close, h2]

/-- Claim C2: FIFO — if N writes of w1..wN all succeed on a freshly created
channel (any capacity) with no interleaved reads, then N subsequent reads,
each either a `Read` (finite timeout) or a `TryRead`, all succeed and
return exactly w1..wN in that order, leaving the queue empty. -/
theorem fifo (k : Nat) (ws : List α) (d : α) (useTry : Nat → Bool) (s' : Channel α)
    (h : (Channel.Create α k).writeAll ws = some s') :
    Channel.readN d useTry ws.length s' = some (ws, { s' with queue := [] }) := by
  obtain ⟨hc, hm, hq⟩ := Channel.writeAll_spec ws (Channel.Create α k) s' h
  have h1 : s'.closed = false := by simpa [Channel.Create] using hc
  have h2 : s'.queue = ws := by simpa [Channel.Create] using hq
  have h3 := Channel.readN_spec d useTry ws.length s' h1 (by simp [h2])
  simpa [h2] using h3

/-- Witness for C2 at a concrete input: capacity 2, writes [1, 2]. -/
theorem fifo_witness :
    Channel.readN 0 (fun _ => false) 2 (⟨[1, 2], false, 2⟩ : Channel Nat) =
      some ([1, 2], ⟨[], false, 2⟩) :=
  fifo 2 [1, 2] 0 (fun _ => false) ⟨[1, 2], false, 2⟩ (by decide)

/-- Claim C7: Scenario A — on a fresh capacity-2 channel, Write(A) and
Write(B) succeed, TryWrite(C) fails `ResourceExhausted`, Read() succeeds
returning A, TryWrite(C) then succeeds, and ReadAll() succeeds returning
[B, C] in order with the queue empty afterwards.  (The output cells start
as C and [] to show the returned values come from the queue.) -/
theorem scenario_a :
    ((Channel.Create Item 2).Write .A).1 = .ok ∧
    (((Channel.Create Item 2).Write .A).2.Write .B).1 = .ok ∧
    ((((Channel.Create Item 2).Write .A).2.Write .B).2.TryWrite .C).1 =
      .error .resourceExhausted ∧
    (((((Channel.Create Item 2).Write .A).2.Write .B).2.TryWrite .C).2.Read .C).1 = .ok ∧
    (((((Channel.Create Item 2).Write .A).2.Write .B).2.TryWrite .C).2.Read .C).2.1 = .A ∧
    ((((((Channel.Create Item 2).Write .A).2.Write .B).2.TryWrite
        .C).2.Read .C).2.2.TryWrite .C).1 = .ok ∧
    (((((((Channel.Create Item 2).Write .A).2.Write .B).2.TryWrite
        .C).2.Read .C).2.2.TryWrite .C).2.ReadAll []).1 = .ok ∧
    (((((((Channel.Create Item 2).Write .A).2.Write .B).2.TryWrite
        .C).2.Read .C).2.2.TryWrite .C).2.ReadAll []).2.1 = [.B, .C] ∧
    (((((((Channel.Create Item 2).Write .A).2.Write .B).2.TryWrite
        .C).2.Read .C).2.2.TryWrite .C).2.ReadAll []).2.2.queue = [] := by
  decide

/-- Claim C3: capacity invariant — a freshly created channel of any
capacity satisfies queue length ≤ capacity, every operation (Write,
TryWrite, Read, TryRead, ReadAll via `applyOp`, and Close) preserves it,
and from any state satisfying it the defensive `Internal` error branch is
unreachable in every operation. -/
theorem capacity_invariant (k : Nat) (s : Channel α) (t t' d d' : α) (ts : List α)
    (op : ChanOp α) (h : s.inv) :
    (Channel.Create α k).inv ∧
    (s.applyOp op).2.inv ∧
    s.Close.2.inv ∧
    (s.Write t).1 ≠ .error .internal ∧
    (s.TryWrite t').1 ≠ .error .internal ∧
    (s.Read d).1 ≠ .error .internal ∧
    (s.TryRead d').1 ≠ .error .internal ∧
    (s.ReadAll ts).1 ≠ .error .internal := by
  have hni := Channel.checkWriteState_not_internal s h
  refine ⟨by simp [Channel.Create, Channel.inv], Channel.inv_applyOp s op h, ?_,
    ?_, ?_, ?_, ?_, ?_⟩
  · cases hcl : s.closed <;> simpa [Channel.Close, hcl, Channel.inv] using h
  · cases hc : s.CheckWriteStateAndBlock with
    | error e =>
      rw [Channel.checkBlock_eq_check] at hc
      simp only [Channel.Write, Channel.checkBlock_eq_check, hc]
      intro hcontra
      rw [hc] at hni
      simp at hcontra
      exact hni (by rw [hcontra])
    | ok =>
      rw [Channel.checkBlock_eq_check] at hc
      simp [Channel.Write, Channel.checkBlock_eq_check, hc]
  · cases hc : s.CheckWriteState with
    | error e =>
      simp only [Channel.TryWrite, hc]
      intro hcontra
      rw [hc] at hni
      simp at hcontra
      exact hni (by rw [hcontra])
    | ok => simp [Channel.TryWrite, hc]
  · cases hcl : s.closed <;> cases hq : s.queue <;> simp [Channel.Read, hcl, hq]
  · cases hcl : s.closed <;> cases hq : s.queue <;> simp [Channel.TryRead, hcl, hq]
  · cases hcl : s.closed <;> simp [Channel.ReadAll, hcl]

/-- Witness for C3 at a concrete input: a state with one item, capacity 2. -/
theorem capacity_invariant_witness :
    (Channel.Create Nat 3).inv ∧
    ((⟨[5], false, 2⟩ : Channel Nat).applyOp (.write 7)).2.inv ∧
    (⟨[5], false, 2⟩ : Channel Nat).Close.2.inv ∧
    ((⟨[5], false, 2⟩ : Channel Nat).Write 7).1 ≠ .error .internal ∧
    ((⟨[5], false, 2⟩ : Channel Nat).TryWrite 8).1 ≠ .error .internal ∧
    ((⟨[5], false, 2⟩ : Channel Nat).Read 0).1 ≠ .error .internal ∧
    ((⟨[5], false, 2⟩ : Channel Nat).TryRead 1).1 ≠ .error .internal ∧
    ((⟨[5], false, 2⟩ : Channel Nat).ReadAll []).1 ≠ .error .internal :=
  capacity_invariant 3 ⟨[5], false, 2⟩ 7 8 0 1 [] (ChanOp.write 7) (by decide)

/-- Claim C5: capacity bound on non-blocking writes — after `k` successful
writes on a fresh capacity-`k` channel with no reads, the next `TryWrite`
fails with `ResourceExhausted` and leaves the state unchanged; a capacity-0
channel is permanently full, so while open every `TryWrite` on it fails
with `ResourceExhausted`, and once closed with `Cancelled`. -/
theorem capacity_bound (k : Nat) (ws : List α) (t t' t'' : α) (s s0 s1 : Channel α)
    (hlen : ws.length = k)
    (h : (Channel.Create α k).writeAll ws = some s)
    (h0 : s0.max_depth = 0) (hq0 : s0.queue.length ≤ s0.max_depth)
    (hopen : s0.closed = false)
    (_h1 : s1.max_depth = 0) (hcl : s1.closed = true) :
    s.TryWrite t = (.error .resourceExhausted, s) ∧
    s0.TryWrite t' = (.error .resourceExhausted, s0) ∧
    s1.TryWrite t'' = (.error .cancelled, s1) := by
  obtain ⟨hc, hm, hq⟩ := Channel.writeAll_spec ws (Channel.Create α k) s h
  refine ⟨?_, ?_, ?_⟩
  · have hcf : s.closed = false := by simpa [Channel.Create] using hc
    have hmf : s.max_depth = k := by simpa [Channel.Create] using hm
    have hqf : s.queue = ws := by simpa [Channel.Create] using hq
    simp [Channel.TryWrite, Channel.CheckWriteState, hcf, hqf, hmf, hlen]
  · have hfull : s0.queue.length = s0.max_depth := by omega
    simp [Channel.TryWrite, Channel.CheckWriteState, hopen, hfull]
  · simp [Channel.TryWrite, Channel.CheckWriteState, hcl]

/-- Witness for C5 at a concrete input: capacity 1 filled by one write, and
a capacity-0 channel in its open and closed states. -/
theorem capacity_bound_witness :
    (⟨[4], false, 1⟩ : Channel Nat).TryWrite 9 =
      (.error .resourceExhausted, ⟨[4], false, 1⟩) ∧
    (⟨[], false, 0⟩ : Channel Nat).TryWrite 9 =
      (.error .resourceExhausted, ⟨[], false, 0⟩) ∧
    (⟨[], true, 0⟩ : Channel Nat).TryWrite 9 = (.error .cancelled, ⟨[], true, 0⟩) :=
  capacity_bound 1 [4] 9 9 9 ⟨[4], false, 1⟩ ⟨[], false, 0⟩ ⟨[], true, 0⟩
    (by decide) (by decide) (by decide) (by decide) (by decide) (by decide) (by decide)

/-- Claim C6: ReadAll semantics — on a closed channel `ReadAll` fails with
`Cancelled` leaving the queue (and the output vector) unchanged; on an open
channel it succeeds, returns exactly the whole queue contents in FIFO order
(the empty sequence when the queue is empty), and leaves the queue empty. -/
theorem readall_semantics (s s' : Channel α) (ts ts' : List α)
    (hopen : s.closed = false) (hcl : s'.closed = true) :
    s.ReadAll ts = (.ok, s.queue, { s with queue := [] }) ∧
    s'.ReadAll ts' = (.error .cancelled, ts', s') := by
  constructor <;> simp [Channel.ReadAll, hopen, hcl]

/-- Witness for C6 at a concrete input: an open channel holding [1, 2] and
a closed channel holding [3]. -/
theorem readall_semantics_witness :
    (⟨[1, 2], false, 4⟩ : Channel Nat).ReadAll [] = (.ok, [1, 2], ⟨[], false, 4⟩) ∧
    (⟨[3], true, 4⟩ : Channel Nat).ReadAll [] = (.error .cancelled, [], ⟨[3], true, 4⟩) :=
  readall_semantics ⟨[1, 2], false, 4⟩ ⟨[3], true, 4⟩ [] [] (by decide) (by decide)

/-- Claim C8: handle creation validation — `ChannelReader::Create` and
`ChannelWriter::Create` return no handle exactly when the channel reference
is null or the channel is already closed (`ch'` ranges over all closed
channels, `ch` over all open ones, so the six equations characterize every
input); on an open channel they return a handle holding that very
channel. -/
theorem handle_create (ch ch' : Channel α)
    (hopen : ch.closed = false) (hcl : ch'.closed = true) :
    ChannelReader.Create (α := α) none = none ∧
    ChannelWriter.Create (α := α) none = none ∧
    ChannelReader.Create (some ch') = none ∧
    ChannelWriter.Create (some ch') = none ∧
    ChannelReader.Create (some ch) = some ⟨ch⟩ ∧
    ChannelWriter.Create (some ch) = some ⟨ch⟩ := by
  refine ⟨rfl, rfl, ?_, ?_, ?_, ?_⟩ <;>
    simp [ChannelReader.Create, ChannelWriter.Create, Channel.IsClosed, hopen, hcl]

/-- Witness for C8 at a concrete input: an open and a closed channel. -/
theorem handle_create_witness :
    ChannelReader.Create (α := Nat) none = none ∧
    ChannelWriter.Create (α := Nat) none = none ∧
    ChannelReader.Create (some (⟨[], true, 1⟩ : Channel Nat)) = none ∧
    ChannelWriter.Create (some (⟨[], true, 1⟩ : Channel Nat)) = none ∧
    ChannelReader.Create (some (⟨[], false, 1⟩ : Channel Nat)) = some ⟨⟨[], false, 1⟩⟩ ∧
    ChannelWriter.Create (some (⟨[], false, 1⟩ : Channel Nat)) = some ⟨⟨[], false, 1⟩⟩ :=
  handle_create ⟨[], false, 1⟩ ⟨[], true, 1⟩ (by decide) (by decide)

/-- Claim C9: NotFound conditions — on an open channel `TryRead` fails with
`NotFound` exactly when the queue is empty (`e` ranges over open empty
states, `f` over open non-empty ones, where both reads succeed instead);
a `Read` whose bounded timeout elapses on a still-empty queue fails with
`NotFound`; on a closed channel both reads fail with `Cancelled`, never
`NotFound`. -/
theorem notfound_conditions (e f c : Channel α) (d1 d2 d3 : α)
    (he : e.closed = false) (heq : e.queue = [])
    (hf : f.closed = false) (hfq : f.queue ≠ [])
    (hc : c.closed = true) :
    (e.TryRead d1).1 = .error .notFound ∧
    (e.Read d1).1 = .error .notFound ∧
    (f.TryRead d2).1 = .ok ∧
    (f.Read d2).1 = .ok ∧
    (c.Read d3).1 = .error .cancelled ∧
    (c.TryRead d3).1 = .error .cancelled := by
  obtain ⟨x, rest, hx⟩ : ∃ x rest, f.queue = x :: rest := by
    cases hq : f.queue with
    | nil => exact absurd hq hfq
    | cons a l => exact ⟨a, l, rfl⟩
  refine ⟨?_, ?_, ?_, ?_, ?_, ?_⟩ <;>
    simp [Channel.TryRead, Channel.Read, he, heq, hf, hx, hc]

/-- Witness for C9 at a concrete input: open empty, open non-empty, and
closed channel states. -/
theorem notfound_conditions_witness :
    ((⟨[], false, 1⟩ : Channel Nat).TryRead 0).1 = .error .notFound ∧
    ((⟨[], false, 1⟩ : Channel Nat).Read 0).1 = .error .notFound ∧
    ((⟨[2], false, 1⟩ : Channel Nat).TryRead 0).1 = .ok ∧
    ((⟨[2], false, 1⟩ : Channel Nat).Read 0).1 = .ok ∧
    ((⟨[3], true, 1⟩ : Channel Nat).Read 0).1 = .error .cancelled ∧
    ((⟨[3], true, 1⟩ : Channel Nat).TryRead 0).1 = .error .cancelled :=
  notfound_conditions ⟨[], false, 1⟩ ⟨[2], false, 1⟩ ⟨[3], true, 1⟩ 0 0 0
    (by decide) (by decide) (by decide) (by decide) (by decide)

/-- Claim C10: output untouched on read failure — whenever `Read` or
`TryRead` fails (`sf` is any state on which `Read` does not succeed, which
happens exactly on the `Cancelled` and `NotFound` paths), the output cell
still holds its prior contents `df` and the channel state is unchanged; on
the success path (open channel, queue `x :: rest`) the output cell is
assigned exactly the former front element `x`. -/
theorem read_output_frame (s sf : Channel α) (d df x : α) (rest : List α)
    (hs : s.closed = false) (hq : s.queue = x :: rest)
    (hf : (sf.Read df).1 ≠ .ok) :
    (sf.Read df).2.1 = df ∧ (sf.Read df).2.2 = sf ∧
    (sf.TryRead df).2.1 = df ∧ (sf.TryRead df).2.2 = sf ∧
    s.Read d = (.ok, x, { s with queue := rest }) ∧
    s.TryRead d = (.ok, x, { s with queue := rest }) := by
  have hfail : (sf.Read df).2.1 = df ∧ (sf.Read df).2.2 = sf := by
    cases hcl : sf.closed with
    | true => simp [Channel.Read, hcl]
    | false =>
      cases hq' : sf.queue with
      | nil => simp [Channel.Read, hcl, hq']
      | cons y l => exact absurd (by simp [Channel.Read, hcl, hq']) hf
  refine ⟨hfail.1, hfail.2, ?_, ?_, ?_, ?_⟩
  · rw [Channel.tryRead_eq_read]; exact hfail.1
  · rw [Channel.tryRead_eq_read]; exact hfail.2
  · simp [Channel.Read, hs, hq]
  · simp [Channel.TryRead, hs, hq]

/-- Witness for C10 at a concrete input: a failing read on an open empty
channel and a succeeding read on a channel holding [8, 9]. -/
theorem read_output_frame_witness :
    ((⟨[], false, 1⟩ : Channel Nat).Read 5).2.1 = 5 ∧
    ((⟨[], false, 1⟩ : Channel Nat).Read 5).2.2 = ⟨[], false, 1⟩ ∧
    ((⟨[], false, 1⟩ : Channel Nat).TryRead 5).2.1 = 5 ∧
    ((⟨[], false, 1⟩ : Channel Nat).TryRead 5).2.2 = ⟨[], false, 1⟩ ∧
    (⟨[8, 9], false, 2⟩ : Channel Nat).Read 0 = (.ok, 8, ⟨[9], false, 2⟩) ∧
    (⟨[8, 9], false, 2⟩ : Channel Nat).TryRead 0 = (.ok, 8, ⟨[9], false, 2⟩) :=
  read_output_frame ⟨[8, 9], false, 2⟩ ⟨[], false, 1⟩ 0 5 8 [9]
    (by decide) (by decide) (by decide)

end Stratum
